import Mathlib

/-!
Shallow embedding of the rate-resolution logic of `valutatrade_hub`:
the staleness predicate `_is_stale`, the resolver `get_rate`
(`core/usecases.py`) and the refresh cycle `RatesUpdater.update`
(`parser_service/updater.py`), together with proofs of the behavioural
properties stated in the design document.

Modelling conventions:
* Python `str` is a list of characters (`Str`).
* Python `float` rates are modelled as `ℚ` (the claims are about which
  value is stored/derived, not about rounding).
* Wall-clock time is an explicit parameter, in microseconds since the
  Unix epoch (`datetime.timedelta.total_seconds()` resolves to
  microsecond precision).
* Python `dict` is an association list with last-write-wins insertion.
* A fallible collaborator (an adapter fetch, the `run_once` refresh)
  is passed in as an `Except` value: `.error e` models the call raising
  an exception whose string form is `e`.
-/

set_option maxRecDepth 20000

/-- Python `str`, modelled as a list of characters. -/
abbrev Str := List Char

/-- Characters removed by Python's `str.strip()` (ASCII whitespace). -/
def isPySpace (c : Char) : Bool :=
  c == ' ' || c == '\t' || c == '\n' || c == '\r' || c == '\x0b' || c == '\x0c'

/-- Python `str.strip()`. -/
def pyStrip (s : Str) : Str :=
  ((s.dropWhile isPySpace).reverse.dropWhile isPySpace).reverse

/-- `_is_stale`'s `Z` normalisation: `value[:-1] + "+00:00"` when
`value.endswith("Z")`. -/
def normZ (v : Str) : Str :=
  if v.getLast? = some 'Z' then v.dropLast ++ "+00:00".data else v

/-- Value of a decimal digit character. -/
def digitVal (c : Char) : Option Nat :=
  if c.isDigit then some (c.toNat - 48) else none

/-- Read exactly `n` decimal digits, returning the value and the rest. -/
def readNatAux (acc : Nat) : Nat → Str → Option (Nat × Str)
  | 0, s => some (acc, s)
  | _ + 1, [] => none
  | n + 1, c :: s =>
    match digitVal c with
    | some d => readNatAux (acc * 10 + d) n s
    | none => none

/-- Read exactly `n` decimal digits. -/
def readNat (n : Nat) (s : Str) : Option (Nat × Str) := readNatAux 0 n s

/-- Read a maximal run of decimal digits, returning value, count, rest. -/
def readDigitsAll : Str → Nat → Nat → Nat × Nat × Str
  | [], acc, k => (acc, k, [])
  | c :: s, acc, k =>
    match digitVal c with
    | some d => readDigitsAll s (acc * 10 + d) (k + 1)
    | none => (acc, k, c :: s)

/-- Gregorian leap year (as in Python's `datetime`). -/
def isLeapYear (y : Nat) : Bool :=
  y % 4 == 0 && (y % 100 != 0 || y % 400 == 0)

/-- Number of days in a month. -/
def daysInMonth (y m : Nat) : Nat :=
  if m = 2 then (if isLeapYear y then 29 else 28)
  else if m = 4 ∨ m = 6 ∨ m = 9 ∨ m = 11 then 30 else 31

/-- Days since 1970-01-01 of the civil date `y-m-d` (valid Gregorian
date, `y ≥ 1`). -/
def daysFromCivil (y m d : Nat) : Int :=
  let y' := if m ≤ 2 then y - 1 else y
  let era := y' / 400
  let yoe := y' % 400
  let mp := (m + 9) % 12
  let doy := (153 * mp + 2) / 5 + d - 1
  let doe := yoe * 365 + yoe / 4 - yoe / 100 + doy
  (era * 146097 + doe : Int) - 719468

/-- A parsed `datetime`: wall-clock reading in microseconds since the
epoch plus an optional UTC offset (`none` = offset-naive). -/
structure ParsedDT where
  localUs : Int
  offsetUs : Option Int
deriving DecidableEq, Repr

/-- UTC instant of a parsed datetime; an offset-naive value is read as
UTC (the `ts.replace(tzinfo=timezone.utc)` branch of `_is_stale`). -/
def utcUs (p : ParsedDT) : Int := p.localUs - p.offsetUs.getD 0

/-- Parse a UTC offset `±HH:MM` (the form emitted by
`datetime.isoformat` and produced by the `Z` normalisation). -/
def parseOffset (sign : Char) (s : Str) : Option (Int × Str) :=
  match readNat 2 s with
  | some (hh, ':' :: s2) =>
    match readNat 2 s2 with
    | some (mm, s3) =>
      if hh ≤ 23 ∧ mm ≤ 59 then
        let mag : Int := (hh * 3600 + mm * 60 : Nat)
        some ((if sign = '-' then -mag else mag) * 1000000, s3)
      else none
    | none => none
  | _ => none

/-- Parse a time of day `HH:MM[:SS[.fff|.ffffff]]`, returning
microseconds since midnight and the rest of the string. -/
def parseTime (s : Str) : Option (Int × Str) :=
  match readNat 2 s with
  | some (h, ':' :: s2) =>
    match readNat 2 s2 with
    | some (mi, s3) =>
      if h ≤ 23 ∧ mi ≤ 59 then
        match s3 with
        | ':' :: s4 =>
          match readNat 2 s4 with
          | some (sec, s5) =>
            if sec ≤ 59 then
              match s5 with
              | '.' :: s6 =>
                match readDigitsAll s6 0 0 with
                | (v, k, s7) =>
                  if k = 3 then
                    some (((h * 3600 + mi * 60 + sec) * 1000000 + v * 1000 : Nat), s7)
                  else if k = 6 then
                    some (((h * 3600 + mi * 60 + sec) * 1000000 + v : Nat), s7)
                  else none
              | rest => some (((h * 3600 + mi * 60 + sec) * 1000000 : Nat), rest)
            else none
          | none => none
        | rest => some (((h * 3600 + mi * 60) * 1000000 : Nat), rest)
      else none
    | none => none
  | _ => none

/-- `datetime.fromisoformat` on the strings this system handles:
`YYYY-MM-DD[{T| }HH:MM[:SS[.fff|.ffffff]]][±HH:MM]`, with calendar and
range validation.  Returns the parsed instant or `none` (a raised
`ValueError`). -/
def fromisoformat (s : Str) : Option ParsedDT :=
  match readNat 4 s with
  | some (y, '-' :: s2) =>
    match readNat 2 s2 with
    | some (m, '-' :: s4) =>
      match readNat 2 s4 with
      | some (d, s5) =>
        if 1 ≤ y ∧ 1 ≤ m ∧ m ≤ 12 ∧ 1 ≤ d ∧ d ≤ daysInMonth y m then
          let dayUs : Int := daysFromCivil y m d * 86400000000
          match s5 with
          | [] => some ⟨dayUs, none⟩
          | sep :: s6 =>
            if sep = 'T' ∨ sep = ' ' then
              match parseTime s6 with
              | some (tUs, []) => some ⟨dayUs + tUs, none⟩
              | some (tUs, c :: s8) =>
                if c = '+' ∨ c = '-' then
                  match parseOffset c s8 with
                  | some (off, []) => some ⟨dayUs + tUs, some off⟩
                  | _ => none
                else none
              | none => none
            else none
        else none
      | none => none
    | _ => none
  | _ => none

/-- The full parsing pipeline of `_is_stale` on a non-empty string:
strip, normalise a trailing `Z`, parse. -/
def parseUpdatedAt (s : Str) : Option ParsedDT :=
  fromisoformat (normZ (pyStrip s))

/-- `_is_stale(updated_at, ttl_seconds)` from `core/usecases.py`, with
the wall clock `now` (UTC microseconds since the epoch) made explicit.
`True` when `updated_at` is falsy, unparsable, or strictly older than
`ttl_seconds`. -/
def is_stale (updated_at : Option Str) (ttl_seconds : Int) (now : Int) : Bool :=
  match updated_at with
  | none => true
  | some s =>
    if s = [] then true
    else
      match parseUpdatedAt s with
      | none => true
      | some p => decide (now - utcUs p > ttl_seconds * 1000000)

/-! ## Cache data model (`rates.json` contents) -/

/-- One cached quote record: the value stored under a pair key.
`rate` is `Option` because a JSON record may lack the field (`.get`
returns `None`); `updated_at` likewise. -/
structure Quote where
  rate : Option ℚ
  updated_at : Option Str
  source : Str
deriving DecidableEq, Repr

/-- The rates cache: `{"pairs": {...}, "last_refresh": ...}`.  The
`pairs` dict is an association list (insertion-ordered, unique keys). -/
structure Cache where
  pairs : List (Str × Quote)
  last_refresh : Option Str
deriving DecidableEq, Repr

/-- Python dict lookup `pairs.get(k)` / `k in pairs`. -/
def lookupPair (ps : List (Str × Quote)) (k : Str) : Option Quote :=
  match ps with
  | [] => none
  | (k', q) :: rest => if k' = k then some q else lookupPair rest k

/-- Python dict assignment `pairs[k] = q`: overwrite in place if the
key exists, else append. -/
def insertPair (ps : List (Str × Quote)) (k : Str) (q : Quote) : List (Str × Quote) :=
  match ps with
  | [] => [(k, q)]
  | (k', q') :: rest =>
    if k' = k then (k, q) :: rest else (k', q') :: insertPair rest k q

/-- Python `a or b` on an optional string: `b` when `a` is `None` or
empty (falsy). -/
def orFalsy (a b : Option Str) : Option Str :=
  match a with
  | none => b
  | some s => if s = [] then b else some s

/-! ## Currency registry (`core/currencies.py`) -/

/-- The codes registered by `CurrencyRegistry._init_registry`. -/
def registryCodes : List Str :=
  ["USD".data, "EUR".data, "GBP".data, "RUB".data, "BTC".data, "ETH".data, "SOL".data]

/-- `CurrencyRegistry.get_currency`: normalise with
`code.upper().strip()`; unknown codes raise `CurrencyNotFoundError`
carrying the normalised code. -/
def getCurrency (code : Str) : Except Str Str :=
  let c := pyStrip (code.map Char.toUpper)
  if c ∈ registryCodes then .ok c else .error c

/-! ## The resolver `get_rate` (`core/usecases.py`) -/

/-- The typed failures `get_rate` can raise. -/
inductive GetRateError where
  | apiRequest (reason : Str)
  | currencyNotFound (code : Str)
  | staleRates (pair : Str) (last_updated : Option Str)
deriving DecidableEq, Repr

/-- The success payload of `get_rate`. -/
structure RateInfo where
  currency_code : Str
  to_currency : Str
  rate : ℚ
  updated_at : Option Str
deriving DecidableEq, Repr

/-- View of `Except` as a sum, to derive decidable equality. -/
def exceptToSum {ε α : Type} : Except ε α → ε ⊕ α
  | .error e => .inl e
  | .ok a => .inr a

instance {ε α : Type} [DecidableEq ε] [DecidableEq α] : DecidableEq (Except ε α) :=
  fun x y =>
    decidable_of_iff (exceptToSum x = exceptToSum y)
      (by cases x <;> cases y <;> simp [exceptToSum])

/-- A `get_rate` run, instrumented with the number of cache reads
(`get_rates_cache` calls) and refresh cycles (`run_once` calls). -/
structure GetRateTrace where
  result : Except GetRateError RateInfo
  cacheReads : Nat
  refreshes : Nat
deriving DecidableEq, Repr

/-- The direct/reverse lookup block of `get_rate` over one cache read.
When neither branch fires, `rate` and `updated_at` keep their prior
values `rate0`, `ua0` (exactly as the Python locals do). -/
def lookupStep (c : Cache) (pairDirect pairReverse : Str)
    (rate0 : Option ℚ) (ua0 : Option Str) : Option ℚ × Option Str :=
  match lookupPair c.pairs pairDirect with
  | some e => (e.rate, orFalsy e.updated_at c.last_refresh)
  | none =>
    match lookupPair c.pairs pairReverse with
    | some e =>
      match e.rate with
      | some r =>
        if r ≠ 0 then (some (1 / r), orFalsy e.updated_at c.last_refresh)
        else (rate0, ua0)
      | none => (rate0, ua0)
    | none => (rate0, ua0)

/-- The final `rate is None` / `_is_stale` checks and result dict of
`get_rate`. -/
def finalizeRate (f t : Str) (rate : Option ℚ) (ua : Option Str)
    (ttl now : Int) (reads refs : Nat) : GetRateTrace :=
  match rate with
  | none => ⟨.error (.currencyNotFound (f ++ "->".data ++ t)), reads, refs⟩
  | some r =>
    if is_stale ua ttl now then
      ⟨.error (.staleRates (f ++ "->".data ++ t) ua), reads, refs⟩
    else ⟨.ok ⟨f, t, r, ua⟩, reads, refs⟩

/-- `get_rate(from_code, to_code)` from `core/usecases.py`.  `cache` is
the stored cache at the first read; `refreshOutcome` models the
`run_once()` call: `.error e` is a raised exception (string form `e`),
`.ok cache2` is a completed refresh leaving `cache2` as the stored
cache for the second read.  This is the body after the two
`CurrencyRegistry.get_currency` validations. -/
def resolveWith (f t : Str) (ttl now : Int) (cache : Cache)
    (refreshOutcome : Except Str Cache) : GetRateTrace :=
  let pd := f ++ '_' :: t
  let pr := t ++ '_' :: f
  let l1 := lookupStep cache pd pr none none
  if l1.1 = none ∨ is_stale l1.2 ttl now then
    match refreshOutcome with
    | .error e => ⟨.error (.apiRequest e), 1, 1⟩
    | .ok cache2 =>
      let l2 := lookupStep cache2 pd pr l1.1 l1.2
      finalizeRate f t l2.1 l2.2 ttl now 2 1
  else finalizeRate f t l1.1 l1.2 ttl now 1 0

/-- `get_rate(from_code, to_code)` from `core/usecases.py`: registry
validation of both codes, then the resolution body. -/
def get_rate_run (from_code to_code : Str) (ttl now : Int) (cache : Cache)
    (refreshOutcome : Except Str Cache) : GetRateTrace :=
  match getCurrency from_code with
  | .error c => ⟨.error (.currencyNotFound c), 0, 0⟩
  | .ok f =>
    match getCurrency to_code with
    | .error c => ⟨.error (.currencyNotFound c), 0, 0⟩
    | .ok t => resolveWith f t ttl now cache refreshOutcome

/-! ## The refresh cycle `RatesUpdater.update` (`parser_service/updater.py`) -/

/-- One entry of the crypto fetch result: the per-coin dict, of which
the updater reads `data.get("usd")` (`none` models both a missing key
and a non-dict value). -/
structure CryptoEntry where
  usd : Option ℚ
deriving DecidableEq, Repr

/-- The fiat fetch result: either the empty dict `{}` (any failure
path of `ExchangeRateClient.fetch_rates`) or `{"base": …, "rates": …}`
as built on its success path.  A rate value may be JSON `null`
(`none`). -/
inductive FiatFetch where
  | empty
  | data (base : Str) (rates : List (Str × Option ℚ))
deriving DecidableEq, Repr

/-- The `RefreshResult` dict returned by `RatesUpdater.update`. -/
structure RefreshResult where
  ok : Bool
  updated_pairs : Nat
  last_refresh : Str
  warnings : List Str
  src_coingecko : Nat
  src_exchangerate : Nat
deriving DecidableEq, Repr

/-- `FIAT_CURRENCIES` from `parser_service/config.py`. -/
def FIAT_CURRENCIES : List Str := ["USD".data, "EUR".data, "RUB".data, "GBP".data]

/-- The key set of `CRYPTO_ID_MAP` from `parser_service/config.py`. -/
def CRYPTO_ID_MAP_KEYS : List Str := ["BTC".data, "ETH".data, "SOL".data]

/-- `allowed_codes = set(FIAT_CURRENCIES) | set(CRYPTO_ID_MAP.keys()) | {"USD"}`
(a list standing for the set; only membership is used). -/
def allowed_codes : List Str := FIAT_CURRENCIES ++ CRYPTO_ID_MAP_KEYS ++ ["USD".data]

/-- `pair.split("_", 1)[0]`: the part before the first underscore (the
whole string when there is none). -/
def splitUnderscoreFirst : Str → Str
  | [] => []
  | c :: cs => if c = '_' then [] else c :: splitUnderscoreFirst cs

/-- `pair.split("_", 1)[-1]`: the part after the first underscore (the
whole string when there is none). -/
def splitUnderscoreLast : Str → Str
  | [] => []
  | c :: cs => if c = '_' then cs else
      if cs.contains '_' then splitUnderscoreLast cs else c :: cs

/-- The garbage-collection predicate of step 3 of the cycle: both legs
of the pair key are in `allowed_codes`. -/
def gcKeep (k : Str) : Bool :=
  decide (splitUnderscoreFirst k ∈ allowed_codes)
    && decide (splitUnderscoreLast k ∈ allowed_codes)

/-- `str(code).startswith("_")`. -/
def startsWithUnderscore (s : Str) : Bool :=
  match s with
  | [] => false
  | c :: _ => c = '_'

/-- The warning text for a missing `EXCHANGERATE_API_KEY`. -/
def missingKeyWarning : Str :=
  "EXCHANGERATE_API_KEY не задан — фиатные курсы пропущены".data

/-- `source in (None, "", name)`: the source filter of the update
cycle. -/
def sourceMatches (source : Option Str) (name : Str) : Bool :=
  decide (source = none) || decide (source = some []) || decide (source = some name)

/-- The crypto write loop (step 4): for each non-underscore-prefixed
code with a present `usd` value, write `CODE_USD` with the raw rate. -/
def applyCrypto (timestamp : Str) (crypto : List (Str × CryptoEntry))
    (ps : List (Str × Quote)) : List (Str × Quote) :=
  match crypto with
  | [] => ps
  | (code, entry) :: rest =>
    if startsWithUnderscore code then applyCrypto timestamp rest ps
    else
      match entry.usd with
      | none => applyCrypto timestamp rest ps
      | some r =>
        applyCrypto timestamp rest
          (insertPair ps (code ++ "_USD".data)
            ⟨some r, some timestamp, "CoinGecko".data⟩)

/-- The fiat write loop (step 5): skip `None`/`0` values; invert and
key `CODE_USD` when the feed base is USD, else store directly as
`CODE_<base>`. -/
def applyFiat (timestamp : Str) (base : Str) (rates : List (Str × Option ℚ))
    (ps : List (Str × Quote)) : List (Str × Quote) :=
  match rates with
  | [] => ps
  | (code, v) :: rest =>
    match v with
    | none => applyFiat timestamp base rest ps
    | some r =>
      if r = 0 then applyFiat timestamp base rest ps
      else if base = "USD".data then
        applyFiat timestamp base rest
          (insertPair ps (code ++ "_USD".data)
            ⟨some (1 / r), some timestamp, "ExchangeRate-API".data⟩)
      else
        applyFiat timestamp base rest
          (insertPair ps (code ++ '_' :: base)
            ⟨some r, some timestamp, "ExchangeRate-API".data⟩)

/-- `RatesUpdater.update(source)` from `parser_service/updater.py`,
over explicit inputs: the prior stored cache, the cycle timestamp, the
source filter, whether `self.fiat_client is None` (always `false` with
the shipped factory), and the two fetch outcomes (`.error e` models a
raised `ApiRequestError` with message `e`; a returned-empty fetch is
`.ok []` / `.ok .empty`).  Returns the stored cache after the cycle and
the `RefreshResult`. -/
def update (existing : Cache) (timestamp : Str) (source : Option Str)
    (fiatClientNone : Bool)
    (cryptoOutcome : Except Str (List (Str × CryptoEntry)))
    (fiatOutcome : Except Str FiatFetch) : Cache × RefreshResult :=
  -- 1) crypto fetch
  let cryptoStep : List (Str × CryptoEntry) × List Str × Nat :=
    if sourceMatches source "coingecko".data then
      match cryptoOutcome with
      | .ok m => (m, [], (m.filter (fun kv => !startsWithUnderscore kv.1)).length)
      | .error e => ([], ["CoinGecko: ".data ++ e], 0)
    else ([], [], 0)
  let crypto := cryptoStep.1
  let warnings1 := cryptoStep.2.1
  -- 2) fiat fetch
  let fiatStep : FiatFetch × List Str × Nat :=
    if sourceMatches source "exchangerate".data then
      if fiatClientNone then (.empty, [missingKeyWarning], 0)
      else
        match fiatOutcome with
        | .ok f =>
          (f, [], match f with | .data _ rs => rs.length | .empty => 0)
        | .error e => (.empty, ["ExchangeRate-API: ".data ++ e], 0)
    else (.empty, [], 0)
  let fiat := fiatStep.1
  let warnings := warnings1 ++ fiatStep.2.1
  -- 3) read prior cache, garbage-collect unsupported pairs
  let pairs0 := existing.pairs.filter (fun kv => gcKeep kv.1)
  -- 4) crypto writes (guarded by dict truthiness `if crypto:`)
  let pairs1 := if crypto ≠ [] then applyCrypto timestamp crypto pairs0 else pairs0
  -- 5) fiat writes (guarded by `if fiat and "rates" in fiat:`)
  let pairs2 :=
    match fiat with
    | .empty => pairs1
    | .data base rates => applyFiat timestamp base rates pairs1
  -- 7) persist only when at least one pair exists after merge
  let cacheAfter : Cache :=
    if pairs2 ≠ [] then ⟨pairs2, some timestamp⟩ else existing
  (cacheAfter,
    { ok := pairs2 ≠ []
      updated_pairs := pairs2.length
      last_refresh := timestamp
      warnings := warnings
      src_coingecko := cryptoStep.2.2
      src_exchangerate := fiatStep.2.2 })

/-- The garbage-collected retained pairs of step 3 of the cycle. -/
def gcPairs (existing : Cache) : List (Str × Quote) :=
  existing.pairs.filter (fun kv => gcKeep kv.1)

/-! ## Helper lemmas -/

theorem getCurrency_of_mem {C : Str} (hC : C ∈ registryCodes) :
    getCurrency C = .ok C := by
  fin_cases hC <;> decide

theorem insertPair_ne_nil (ps : List (Str × Quote)) (k : Str) (q : Quote) :
    insertPair ps k q ≠ [] := by
  cases ps with
  | nil => simp [insertPair]
  | cons hd tl =>
    simp only [insertPair]
    split <;> simp

theorem lookupPair_insertPair_self (ps : List (Str × Quote)) (k : Str) (q : Quote) :
    lookupPair (insertPair ps k q) k = some q := by
  induction ps with
  | nil => simp [insertPair, lookupPair]
  | cons hd tl ih =>
    obtain ⟨k', q'⟩ := hd
    simp only [insertPair]
    by_cases h : k' = k
    · simp [h, lookupPair]
    · simp [h, lookupPair, ih]

theorem lookupPair_insertPair_ne (ps : List (Str × Quote)) (k k' : Str) (q : Quote)
    (h : k' ≠ k) : lookupPair (insertPair ps k q) k' = lookupPair ps k' := by
  induction ps with
  | nil => simp [insertPair, lookupPair, Ne.symm h]
  | cons hd tl ih =>
    obtain ⟨k₀, q₀⟩ := hd
    simp only [insertPair]
    by_cases h0 : k₀ = k
    · subst h0
      simp [lookupPair, Ne.symm h]
    · simp [h0, lookupPair, ih]

theorem lookupPair_filter_of_not (ps : List (Str × Quote)) (f : Str → Bool)
    (k : Str) (hk : f k = false) :
    lookupPair (ps.filter (fun kv => f kv.1)) k = none := by
  induction ps with
  | nil => simp [lookupPair]
  | cons hd tl ih =>
    obtain ⟨k₀, q₀⟩ := hd
    by_cases h0 : f k₀
    · have hne : k₀ ≠ k := by
        intro h; rw [h, hk] at h0; exact absurd h0 (by simp)
      simp [List.filter, h0, lookupPair, hne, ih]
    · simp only [Bool.not_eq_true] at h0
      simp [List.filter, h0, ih]

theorem get_rate_run_of_mem {F T : Str} (hF : F ∈ registryCodes)
    (hT : T ∈ registryCodes) (ttl now : Int) (cache : Cache)
    (refresh : Except Str Cache) :
    get_rate_run F T ttl now cache refresh = resolveWith F T ttl now cache refresh := by
  simp [get_rate_run, getCurrency_of_mem hF, getCurrency_of_mem hT]

/-! ## C1: `get_rate(C, C)` -/

/-- C1 counterexample: for the supported code `USD` with an empty cache
and a refresh that completes but changes nothing, `get_rate(USD, USD)`
does not return rate 1.0 — it reads the cache twice, runs one refresh
cycle, and fails with `CurrencyNotFoundError("USD->USD")`.  There is no
same-code shortcut in the code. -/
theorem c1_counterexample :
    get_rate_run "USD".data "USD".data 300 0 ⟨[], none⟩ (.ok ⟨[], none⟩)
      = ⟨.error (.currencyNotFound "USD->USD".data), 2, 1⟩ := by decide

/-- C1 amended: `get_rate(C, C)` is an ordinary lookup of the pair key
`C_C`.  It returns rate 1.0 (with one cache read and no refresh) only
when the cache itself holds a fresh `C_C` entry with rate 1. -/
theorem c1_same_code_no_shortcut (C : Str) (hC : C ∈ registryCodes)
    (cache : Cache) (u src : Str) (ttl now : Int) (refresh : Except Str Cache)
    (hq : lookupPair cache.pairs (C ++ '_' :: C) = some ⟨some 1, some u, src⟩)
    (hu : u ≠ []) (hfresh : is_stale (some u) ttl now = false) :
    get_rate_run C C ttl now cache refresh = ⟨.ok ⟨C, C, 1, some u⟩, 1, 0⟩ := by
  rw [get_rate_run_of_mem hC hC]
  simp [resolveWith, lookupStep, hq, orFalsy, hu, hfresh, finalizeRate]

/-- C1 witness: the amended theorem at `C = "USD"`, a cache holding
`USD_USD = 1` freshly updated, TTL 300s. -/
theorem c1_witness :
    get_rate_run "USD".data "USD".data 300 1767225600000000
        ⟨[("USD_USD".data, ⟨some 1, some "2026-01-01T00:00:00Z".data, "ExchangeRate-API".data⟩)], none⟩
        (.error "unused".data)
      = ⟨.ok ⟨"USD".data, "USD".data, 1, some "2026-01-01T00:00:00Z".data⟩, 1, 0⟩ :=
  c1_same_code_no_shortcut "USD".data (by decide)
    ⟨[("USD_USD".data, ⟨some 1, some "2026-01-01T00:00:00Z".data, "ExchangeRate-API".data⟩)], none⟩
    "2026-01-01T00:00:00Z".data "ExchangeRate-API".data 300 1767225600000000
    (.error "unused".data) (by decide) (by decide) (by decide)

/-! ## C2: refresh cycle with both adapters failing -/

/-- C2 counterexample: prior cache `BTC_USD` with `last_refresh = T0`;
both adapters fail by returning empty results (the normal failure mode
of `fetch_rates`).  The cycle re-persists the cache with
`last_refresh` advanced to the new cycle timestamp `T1`, and the
returned warnings list is empty — not one warning per source. -/
theorem c2_counterexample :
    (update
        ⟨[("BTC_USD".data, ⟨some 20000, some "2026-01-01T00:00:00+00:00".data, "CoinGecko".data⟩)],
          some "2026-01-01T00:00:00+00:00".data⟩
        "2026-01-02T00:00:00+00:00".data none false (.ok []) (.ok .empty)).1.last_refresh
      = some "2026-01-02T00:00:00+00:00".data
    ∧ (update
        ⟨[("BTC_USD".data, ⟨some 20000, some "2026-01-01T00:00:00+00:00".data, "CoinGecko".data⟩)],
          some "2026-01-01T00:00:00+00:00".data⟩
        "2026-01-02T00:00:00+00:00".data none false (.ok []) (.ok .empty)).2.warnings = [] := by
  decide

/-- C2 amended: with both adapters yielding no quotes, the retained
(garbage-collected) prior pairs are unchanged, but: if any pair
survives, the cache is re-persisted with `last_refresh` set to the new
cycle timestamp (only an entirely empty merge leaves the stored cache
untouched); and a failure contributes a warning only when the adapter
raises `ApiRequestError` — empty-result failures contribute none. -/
theorem c2_both_adapters_fail (existing : Cache) (ts e1 e2 : Str) :
    ((update existing ts none false (.ok []) (.ok .empty)).1
        = if gcPairs existing ≠ [] then ⟨gcPairs existing, some ts⟩ else existing)
    ∧ (update existing ts none false (.ok []) (.ok .empty)).2.warnings = []
    ∧ (update existing ts none false (.ok []) (.ok .empty)).2.ok
        = decide (gcPairs existing ≠ [])
    ∧ (update existing ts none false (.error e1) (.error e2)).2.warnings
        = ["CoinGecko: ".data ++ e1, "ExchangeRate-API: ".data ++ e2]
    ∧ ((update existing ts none false (.error e1) (.error e2)).1
        = if gcPairs existing ≠ [] then ⟨gcPairs existing, some ts⟩ else existing) :=
  ⟨rfl, rfl, rfl, rfl, rfl⟩

/-! ## C3: refresh cycle with one adapter succeeding -/

/-- C3 counterexample: crypto succeeds with one `BTC` quote, fiat fails
by returning an empty result.  The quote is persisted and `ok = true`,
but the warnings list is empty, not non-empty as claimed. -/
theorem c3_counterexample :
    (update ⟨[], none⟩ "2026-01-02T00:00:00+00:00".data none false
        (.ok [("BTC".data, ⟨some 20000⟩)]) (.ok .empty)).2.ok = true
    ∧ lookupPair
        (update ⟨[], none⟩ "2026-01-02T00:00:00+00:00".data none false
          (.ok [("BTC".data, ⟨some 20000⟩)]) (.ok .empty)).1.pairs "BTC_USD".data
      = some ⟨some 20000, some "2026-01-02T00:00:00+00:00".data, "CoinGecko".data⟩
    ∧ (update ⟨[], none⟩ "2026-01-02T00:00:00+00:00".data none false
        (.ok [("BTC".data, ⟨some 20000⟩)]) (.ok .empty)).2.warnings = [] := by
  decide

/-- C3 amended: with one adapter succeeding (one quote) and the other
failing — in either orientation — the successful adapter's quote is
persisted and `ok = true`; the warnings list is non-empty exactly when
the failing adapter raises `ApiRequestError` (yielding the
`ExchangeRate-API:` or `CoinGecko:` warning respectively) — when it
fails by returning an empty result, the warnings list is empty. -/
theorem c3_one_adapter_fails (existing : Cache) (ts code fcode e : Str) (r v : ℚ)
    (hcode : startsWithUnderscore code = false) (hv : v ≠ 0) :
    ((update existing ts none false (.ok [(code, ⟨some r⟩)]) (.error e)).2.ok = true
      ∧ lookupPair
          (update existing ts none false (.ok [(code, ⟨some r⟩)]) (.error e)).1.pairs
          (code ++ "_USD".data)
        = some ⟨some r, some ts, "CoinGecko".data⟩
      ∧ (update existing ts none false (.ok [(code, ⟨some r⟩)]) (.error e)).2.warnings
        = ["ExchangeRate-API: ".data ++ e])
    ∧ (update existing ts none false (.ok [(code, ⟨some r⟩)]) (.ok .empty)).2.warnings
        = []
    ∧ ((update existing ts none false (.error e)
          (.ok (.data "USD".data [(fcode, some v)]))).2.ok = true
      ∧ lookupPair
          (update existing ts none false (.error e)
            (.ok (.data "USD".data [(fcode, some v)]))).1.pairs
          (fcode ++ "_USD".data)
        = some ⟨some (1 / v), some ts, "ExchangeRate-API".data⟩
      ∧ (update existing ts none false (.error e)
          (.ok (.data "USD".data [(fcode, some v)]))).2.warnings
        = ["CoinGecko: ".data ++ e])
    ∧ (update existing ts none false (.ok [])
        (.ok (.data "USD".data [(fcode, some v)]))).2.warnings
        = [] := by
  have hins := insertPair_ne_nil (existing.pairs.filter (fun kv => gcKeep kv.1))
    (code ++ "_USD".data) (⟨some r, some ts, "CoinGecko".data⟩ : Quote)
  refine ⟨⟨?_, ?_, ?_⟩, ?_, ⟨?_, ?_, ?_⟩, ?_⟩
  · simp only [update, sourceMatches]
    simp [applyCrypto, hcode, hins]
  · simp only [update, sourceMatches]
    simp [applyCrypto, hcode, hins, lookupPair_insertPair_self]
  · rfl
  · rfl
  · simp only [update, sourceMatches]
    simp [applyFiat, hv]
    exact insertPair_ne_nil _ _ _
  · simp only [update, sourceMatches]
    simp [applyFiat, hv]
    rw [if_neg (insertPair_ne_nil _ _ _)]
    exact lookupPair_insertPair_self _ _ _
  · rfl
  · rfl

/-- C3 witness: the amended theorem at a concrete run in both
orientations — empty prior cache; crypto returns `BTC = 20000` while
fiat raises (and, mirrored, fiat returns `EUR = 2` on a USD base while
crypto raises). -/
theorem c3_witness :
    ((update ⟨[], none⟩ "2026-01-02T00:00:00+00:00".data none false
        (.ok [("BTC".data, ⟨some 20000⟩)]) (.error "boom".data)).2.ok = true
      ∧ lookupPair
          (update ⟨[], none⟩ "2026-01-02T00:00:00+00:00".data none false
            (.ok [("BTC".data, ⟨some 20000⟩)]) (.error "boom".data)).1.pairs
          ("BTC".data ++ "_USD".data)
        = some ⟨some 20000, some "2026-01-02T00:00:00+00:00".data, "CoinGecko".data⟩
      ∧ (update ⟨[], none⟩ "2026-01-02T00:00:00+00:00".data none false
          (.ok [("BTC".data, ⟨some 20000⟩)]) (.error "boom".data)).2.warnings
        = ["ExchangeRate-API: ".data ++ "boom".data])
    ∧ (update ⟨[], none⟩ "2026-01-02T00:00:00+00:00".data none false
        (.ok [("BTC".data, ⟨some 20000⟩)]) (.ok .empty)).2.warnings = []
    ∧ ((update ⟨[], none⟩ "2026-01-02T00:00:00+00:00".data none false
          (.error "boom".data)
          (.ok (.data "USD".data [("EUR".data, some 2)]))).2.ok = true
      ∧ lookupPair
          (update ⟨[], none⟩ "2026-01-02T00:00:00+00:00".data none false
            (.error "boom".data)
            (.ok (.data "USD".data [("EUR".data, some 2)]))).1.pairs
          ("EUR".data ++ "_USD".data)
        = some ⟨some (1 / 2), some "2026-01-02T00:00:00+00:00".data, "ExchangeRate-API".data⟩
      ∧ (update ⟨[], none⟩ "2026-01-02T00:00:00+00:00".data none false
          (.error "boom".data)
          (.ok (.data "USD".data [("EUR".data, some 2)]))).2.warnings
        = ["CoinGecko: ".data ++ "boom".data])
    ∧ (update ⟨[], none⟩ "2026-01-02T00:00:00+00:00".data none false
        (.ok []) (.ok (.data "USD".data [("EUR".data, some 2)]))).2.warnings = [] :=
  c3_one_adapter_fails ⟨[], none⟩ "2026-01-02T00:00:00+00:00".data "BTC".data
    "EUR".data "boom".data 20000 2 (by decide) (by norm_num)

/-! ## C4: the staleness predicate -/

theorem is_stale_of_unparsable {s : Str} (ttl now : Int) (hs : s ≠ [])
    (hp : parseUpdatedAt s = none) : is_stale (some s) ttl now = true := by
  simp [is_stale, hs, hp]

theorem is_stale_of_parse {s : Str} {p : ParsedDT} (ttl now : Int)
    (hp : parseUpdatedAt s = some p) :
    is_stale (some s) ttl now = decide (now - utcUs p > ttl * 1000000) := by
  rcases eq_or_ne s [] with rfl | hs
  · rw [show parseUpdatedAt ([] : Str) = none from rfl] at hp
    cases hp
  · simp [is_stale, hs, hp]

theorem normZ_concat (s : Str) : normZ (s ++ ['Z']) = s ++ "+00:00".data := by
  simp [normZ, List.getLast?_concat, List.dropLast_concat]

/-- C4: `_is_stale` returns `True` on a missing or empty timestamp and
on any string the ISO-8601 parse rejects; on a parsed timestamp it is
exactly `now − t > ttl` in microseconds (strict), so an age of exactly
`ttl` seconds is not stale and `ttl + 1` seconds is stale; a trailing
`"Z"` is rewritten to the `"+00:00"` UTC marker; and an offset-naive
timestamp denotes the same instant as the same reading with a `+00:00`
offset. -/
theorem c4_staleness_rule :
    (∀ ttl now : Int, is_stale none ttl now = true)
    ∧ (∀ ttl now : Int, is_stale (some []) ttl now = true)
    ∧ (∀ (s : Str) (ttl now : Int), s ≠ [] → parseUpdatedAt s = none →
        is_stale (some s) ttl now = true)
    ∧ (∀ (s : Str) (p : ParsedDT) (ttl now : Int), parseUpdatedAt s = some p →
        is_stale (some s) ttl now = decide (now - utcUs p > ttl * 1000000))
    ∧ (∀ (s : Str) (p : ParsedDT) (ttl : Int), parseUpdatedAt s = some p →
        is_stale (some s) ttl (utcUs p + ttl * 1000000) = false
        ∧ is_stale (some s) ttl (utcUs p + ttl * 1000000 + 1000000) = true)
    ∧ (∀ s : Str, normZ (s ++ ['Z']) = s ++ "+00:00".data)
    ∧ parseUpdatedAt "2026-01-01T00:00:00Z".data = some ⟨1767225600000000, some 0⟩
    ∧ parseUpdatedAt "2026-01-01T00:00:00+00:00".data = some ⟨1767225600000000, some 0⟩
    ∧ parseUpdatedAt "2026-01-01T00:00:00".data = some ⟨1767225600000000, none⟩
    ∧ utcUs ⟨1767225600000000, none⟩ = utcUs ⟨1767225600000000, some 0⟩ := by
  refine ⟨fun ttl now => rfl, fun ttl now => rfl,
    fun s ttl now hs hp => is_stale_of_unparsable ttl now hs hp,
    fun s p ttl now hp => is_stale_of_parse ttl now hp,
    fun s p ttl hp => ⟨?_, ?_⟩, normZ_concat, by decide, by decide, by decide, by decide⟩
  · rw [is_stale_of_parse _ _ hp]
    simp only [decide_eq_false_iff_not]
    omega
  · rw [is_stale_of_parse _ _ hp]
    simp only [decide_eq_true_eq]
    omega

/-- C4 witness: the boundary clauses of the rule at the concrete
timestamp `2026-01-01T00:00:00Z` (epoch 1767225600 s) with TTL 300 s,
and the unparsable-string clause at `"not-a-date"`. -/
theorem c4_witness :
    is_stale (some "2026-01-01T00:00:00Z".data) 300
        (utcUs ⟨1767225600000000, some 0⟩ + 300 * 1000000) = false
    ∧ is_stale (some "2026-01-01T00:00:00Z".data) 300
        (utcUs ⟨1767225600000000, some 0⟩ + 300 * 1000000 + 1000000) = true
    ∧ is_stale (some "not-a-date".data) 300 0 = true :=
  ⟨(c4_staleness_rule.2.2.2.2.1 "2026-01-01T00:00:00Z".data
      ⟨1767225600000000, some 0⟩ 300 (by decide)).1,
   (c4_staleness_rule.2.2.2.2.1 "2026-01-01T00:00:00Z".data
      ⟨1767225600000000, some 0⟩ 300 (by decide)).2,
   c4_staleness_rule.2.2.1 "not-a-date".data 300 0 (by decide) (by decide)⟩

/-! ## C5: reverse-pair inversion -/

/-- C5: when the direct pair `FROM_TO` is absent and the reverse pair
`TO_FROM` holds rate `r ≠ 0` with timestamp `u`, the resolver derives
rate `1/r` and uses `u` both in the returned result (fresh case, no
refresh) and for the staleness decision (stale case: the failure
carries `u`). -/
theorem c5_reverse_inversion (F T : Str) (hF : F ∈ registryCodes)
    (hT : T ∈ registryCodes) (cache : Cache) (r : ℚ) (u src : Str)
    (ttl now : Int) (refresh : Except Str Cache)
    (hd : lookupPair cache.pairs (F ++ '_' :: T) = none)
    (hr : lookupPair cache.pairs (T ++ '_' :: F) = some ⟨some r, some u, src⟩)
    (hrz : r ≠ 0) (hu : u ≠ []) :
    (is_stale (some u) ttl now = false →
      get_rate_run F T ttl now cache refresh = ⟨.ok ⟨F, T, 1 / r, some u⟩, 1, 0⟩)
    ∧ (is_stale (some u) ttl now = true → refresh = .ok cache →
      get_rate_run F T ttl now cache refresh
        = ⟨.error (.staleRates (F ++ "->".data ++ T) (some u)), 2, 1⟩) := by
  constructor
  · intro hfresh
    rw [get_rate_run_of_mem hF hT]
    simp [resolveWith, lookupStep, hd, hr, hrz, orFalsy, hu, hfresh, finalizeRate]
  · intro hstale hrefresh
    subst hrefresh
    rw [get_rate_run_of_mem hF hT]
    simp [resolveWith, lookupStep, hd, hr, hrz, orFalsy, hu, hstale, finalizeRate]

/-- C5 witness: `get_rate(USD, BTC)` against a cache holding only
`BTC_USD = 20000` resolves `1/20000` with the reverse entry's
timestamp, both in the fresh case and in the stale failure. -/
theorem c5_witness :
    (is_stale (some "2026-01-01T00:00:00Z".data) 300 1767225700000000 = false
      → get_rate_run "USD".data "BTC".data 300 1767225700000000
          ⟨[("BTC_USD".data, ⟨some 20000, some "2026-01-01T00:00:00Z".data, "CoinGecko".data⟩)], none⟩
          (.error "unused".data)
        = ⟨.ok ⟨"USD".data, "BTC".data, 1 / 20000, some "2026-01-01T00:00:00Z".data⟩, 1, 0⟩)
    ∧ (is_stale (some "2026-01-01T00:00:00Z".data) 300 1767225700000000 = true
      → (.error "unused".data : Except Str Cache)
          = .ok ⟨[("BTC_USD".data, ⟨some 20000, some "2026-01-01T00:00:00Z".data, "CoinGecko".data⟩)], none⟩
      → get_rate_run "USD".data "BTC".data 300 1767225700000000
          ⟨[("BTC_USD".data, ⟨some 20000, some "2026-01-01T00:00:00Z".data, "CoinGecko".data⟩)], none⟩
          (.error "unused".data)
        = ⟨.error (.staleRates ("USD".data ++ "->".data ++ "BTC".data)
            (some "2026-01-01T00:00:00Z".data)), 2, 1⟩) :=
  c5_reverse_inversion "USD".data "BTC".data (by decide) (by decide)
    ⟨[("BTC_USD".data, ⟨some 20000, some "2026-01-01T00:00:00Z".data, "CoinGecko".data⟩)], none⟩
    20000 "2026-01-01T00:00:00Z".data "CoinGecko".data 300 1767225700000000
    (.error "unused".data) (by decide) (by decide) (by decide) (by decide)

/-! ## C6: fiat quote normalization at merge time -/

/-- C6: for a fiat quote with raw value `v`: with feed base USD and
`v ≠ 0` the cycle stores `CODE_USD = 1/v`; a missing or zero value is
skipped (the stored cache is the same as from an empty fiat result);
with a non-USD base the value is stored un-inverted under
`CODE_<base>`. -/
theorem c6_fiat_normalization (existing : Cache) (ts code base : Str) (v : ℚ) :
    (v ≠ 0 →
      (update existing ts none false (.ok []) (.ok (.data "USD".data [(code, some v)]))).1.pairs
        = insertPair (gcPairs existing) (code ++ "_USD".data)
            ⟨some (1 / v), some ts, "ExchangeRate-API".data⟩)
    ∧ ((update existing ts none false (.ok []) (.ok (.data base [(code, none)]))).1
        = (update existing ts none false (.ok []) (.ok .empty)).1)
    ∧ ((update existing ts none false (.ok []) (.ok (.data base [(code, some 0)]))).1
        = (update existing ts none false (.ok []) (.ok .empty)).1)
    ∧ (v ≠ 0 → base ≠ "USD".data →
      (update existing ts none false (.ok []) (.ok (.data base [(code, some v)]))).1.pairs
        = insertPair (gcPairs existing) (code ++ '_' :: base)
            ⟨some v, some ts, "ExchangeRate-API".data⟩) := by
  refine ⟨?_, rfl, rfl, ?_⟩
  · intro hv
    simp only [update, sourceMatches, gcPairs]
    simp [applyFiat, hv]
    rw [if_neg (insertPair_ne_nil _ _ _)]
  · intro hv hbase
    have hins := insertPair_ne_nil (existing.pairs.filter (fun kv => gcKeep kv.1))
      (code ++ '_' :: base) (⟨some v, some ts, "ExchangeRate-API".data⟩ : Quote)
    simp only [update, sourceMatches, gcPairs]
    simp [applyFiat, hv, hbase, hins]

/-- C6 witness: the theorem at `EUR` with raw value `23/25 = 0.92` on a
USD-based feed (stored rate `25/23`), skip cases, and a GBP-based feed. -/
theorem c6_witness :
    ((23 / 25 : ℚ) ≠ 0 →
      (update ⟨[], none⟩ "2026-01-02T00:00:00+00:00".data none false (.ok [])
          (.ok (.data "USD".data [("EUR".data, some (23 / 25))]))).1.pairs
        = insertPair (gcPairs ⟨[], none⟩) ("EUR".data ++ "_USD".data)
            ⟨some (1 / (23 / 25)), some "2026-01-02T00:00:00+00:00".data, "ExchangeRate-API".data⟩)
    ∧ ((update ⟨[], none⟩ "2026-01-02T00:00:00+00:00".data none false (.ok [])
          (.ok (.data "GBP".data [("EUR".data, none)]))).1
        = (update ⟨[], none⟩ "2026-01-02T00:00:00+00:00".data none false (.ok []) (.ok .empty)).1)
    ∧ ((update ⟨[], none⟩ "2026-01-02T00:00:00+00:00".data none false (.ok [])
          (.ok (.data "GBP".data [("EUR".data, some 0)]))).1
        = (update ⟨[], none⟩ "2026-01-02T00:00:00+00:00".data none false (.ok []) (.ok .empty)).1)
    ∧ ((23 / 25 : ℚ) ≠ 0 → "GBP".data ≠ "USD".data →
      (update ⟨[], none⟩ "2026-01-02T00:00:00+00:00".data none false (.ok [])
          (.ok (.data "GBP".data [("EUR".data, some (23 / 25))]))).1.pairs
        = insertPair (gcPairs ⟨[], none⟩) ("EUR".data ++ '_' :: "GBP".data)
            ⟨some (23 / 25), some "2026-01-02T00:00:00+00:00".data, "ExchangeRate-API".data⟩) :=
  c6_fiat_normalization ⟨[], none⟩ "2026-01-02T00:00:00+00:00".data "EUR".data
    "GBP".data (23 / 25)

/-! ## C7: one refresh on miss/stale, then typed failures -/

theorem finalizeRate_cacheReads (f t : Str) (rate : Option ℚ) (ua : Option Str)
    (ttl now : Int) (reads refs : Nat) :
    (finalizeRate f t rate ua ttl now reads refs).cacheReads = reads := by
  cases rate
  · rfl
  · simp only [finalizeRate]
    split <;> rfl

theorem finalizeRate_refreshes (f t : Str) (rate : Option ℚ) (ua : Option Str)
    (ttl now : Int) (reads refs : Nat) :
    (finalizeRate f t rate ua ttl now reads refs).refreshes = refs := by
  cases rate
  · rfl
  · simp only [finalizeRate]
    split <;> rfl

theorem finalizeRate_none (f t : Str) (ua : Option Str) (ttl now : Int)
    (reads refs : Nat) :
    (finalizeRate f t none ua ttl now reads refs).result
      = .error (.currencyNotFound (f ++ "->".data ++ t)) := rfl

theorem finalizeRate_stale (f t : Str) (r : ℚ) (ua : Option Str) (ttl now : Int)
    (reads refs : Nat) (hs : is_stale ua ttl now = true) :
    (finalizeRate f t (some r) ua ttl now reads refs).result
      = .error (.staleRates (f ++ "->".data ++ t) ua) := by
  simp [finalizeRate, hs]

theorem finalizeRate_fresh (f t : Str) (r : ℚ) (ua : Option Str) (ttl now : Int)
    (reads refs : Nat) (hs : is_stale ua ttl now = false) :
    (finalizeRate f t (some r) ua ttl now reads refs).result = .ok ⟨f, t, r, ua⟩ := by
  simp [finalizeRate, hs]

theorem resolveWith_miss_error (F T : Str) (ttl now : Int) (cache : Cache) (e : Str)
    (hmiss : (lookupStep cache (F ++ '_' :: T) (T ++ '_' :: F) none none).1 = none
      ∨ is_stale (lookupStep cache (F ++ '_' :: T) (T ++ '_' :: F) none none).2 ttl now = true) :
    resolveWith F T ttl now cache (.error e) = ⟨.error (.apiRequest e), 1, 1⟩ := by
  simp only [resolveWith]
  rw [if_pos hmiss]

theorem resolveWith_miss_ok (F T : Str) (ttl now : Int) (cache cache2 : Cache)
    (hmiss : (lookupStep cache (F ++ '_' :: T) (T ++ '_' :: F) none none).1 = none
      ∨ is_stale (lookupStep cache (F ++ '_' :: T) (T ++ '_' :: F) none none).2 ttl now = true) :
    resolveWith F T ttl now cache (.ok cache2)
      = finalizeRate F T
          (lookupStep cache2 (F ++ '_' :: T) (T ++ '_' :: F)
            (lookupStep cache (F ++ '_' :: T) (T ++ '_' :: F) none none).1
            (lookupStep cache (F ++ '_' :: T) (T ++ '_' :: F) none none).2).1
          (lookupStep cache2 (F ++ '_' :: T) (T ++ '_' :: F)
            (lookupStep cache (F ++ '_' :: T) (T ++ '_' :: F) none none).1
            (lookupStep cache (F ++ '_' :: T) (T ++ '_' :: F) none none).2).2
          ttl now 2 1 := by
  simp only [resolveWith]
  rw [if_pos hmiss]

/-- C7: with both codes supported and the first lookup yielding no rate
or a stale one, `get_rate` runs exactly one refresh cycle and performs
exactly one further cache read: a raising refresh surfaces as
`ApiRequestError`; otherwise the repeated lookup decides between
`CurrencyNotFoundError` (still no rate), `StaleRatesError` (rate but
stale), and success — and the three failure kinds are distinct typed
errors. -/
theorem c7_single_refresh_and_errors (F T : Str) (hF : F ∈ registryCodes)
    (hT : T ∈ registryCodes) (ttl now : Int) (cache : Cache)
    (refresh : Except Str Cache)
    (hmiss : (lookupStep cache (F ++ '_' :: T) (T ++ '_' :: F) none none).1 = none
      ∨ is_stale (lookupStep cache (F ++ '_' :: T) (T ++ '_' :: F) none none).2 ttl now = true) :
    (∀ e, refresh = .error e →
      get_rate_run F T ttl now cache refresh = ⟨.error (.apiRequest e), 1, 1⟩)
    ∧ (∀ cache2, refresh = .ok cache2 →
      (get_rate_run F T ttl now cache refresh).cacheReads = 2
      ∧ (get_rate_run F T ttl now cache refresh).refreshes = 1
      ∧ ((lookupStep cache2 (F ++ '_' :: T) (T ++ '_' :: F)
            (lookupStep cache (F ++ '_' :: T) (T ++ '_' :: F) none none).1
            (lookupStep cache (F ++ '_' :: T) (T ++ '_' :: F) none none).2).1 = none →
          (get_rate_run F T ttl now cache refresh).result
            = .error (.currencyNotFound (F ++ "->".data ++ T)))
      ∧ (∀ r, (lookupStep cache2 (F ++ '_' :: T) (T ++ '_' :: F)
            (lookupStep cache (F ++ '_' :: T) (T ++ '_' :: F) none none).1
            (lookupStep cache (F ++ '_' :: T) (T ++ '_' :: F) none none).2).1 = some r →
          is_stale (lookupStep cache2 (F ++ '_' :: T) (T ++ '_' :: F)
            (lookupStep cache (F ++ '_' :: T) (T ++ '_' :: F) none none).1
            (lookupStep cache (F ++ '_' :: T) (T ++ '_' :: F) none none).2).2 ttl now = true →
          (get_rate_run F T ttl now cache refresh).result
            = .error (.staleRates (F ++ "->".data ++ T)
                (lookupStep cache2 (F ++ '_' :: T) (T ++ '_' :: F)
                  (lookupStep cache (F ++ '_' :: T) (T ++ '_' :: F) none none).1
                  (lookupStep cache (F ++ '_' :: T) (T ++ '_' :: F) none none).2).2))
      ∧ (∀ r, (lookupStep cache2 (F ++ '_' :: T) (T ++ '_' :: F)
            (lookupStep cache (F ++ '_' :: T) (T ++ '_' :: F) none none).1
            (lookupStep cache (F ++ '_' :: T) (T ++ '_' :: F) none none).2).1 = some r →
          is_stale (lookupStep cache2 (F ++ '_' :: T) (T ++ '_' :: F)
            (lookupStep cache (F ++ '_' :: T) (T ++ '_' :: F) none none).1
            (lookupStep cache (F ++ '_' :: T) (T ++ '_' :: F) none none).2).2 ttl now = false →
          (get_rate_run F T ttl now cache refresh).result
            = .ok ⟨F, T, r,
                (lookupStep cache2 (F ++ '_' :: T) (T ++ '_' :: F)
                  (lookupStep cache (F ++ '_' :: T) (T ++ '_' :: F) none none).1
                  (lookupStep cache (F ++ '_' :: T) (T ++ '_' :: F) none none).2).2⟩))
    ∧ (∀ (e c p : Str) (lu : Option Str),
        GetRateError.apiRequest e ≠ .currencyNotFound c
        ∧ GetRateError.apiRequest e ≠ .staleRates p lu
        ∧ GetRateError.currencyNotFound c ≠ .staleRates p lu) := by
  refine ⟨?_, ?_, ?_⟩
  · intro e he
    subst he
    rw [get_rate_run_of_mem hF hT, resolveWith_miss_error F T ttl now cache e hmiss]
  · intro cache2 he
    subst he
    rw [get_rate_run_of_mem hF hT, resolveWith_miss_ok F T ttl now cache cache2 hmiss]
    refine ⟨finalizeRate_cacheReads _ _ _ _ _ _ _ _,
      finalizeRate_refreshes _ _ _ _ _ _ _ _, ?_, ?_, ?_⟩
    · intro h2
      rw [h2]
      exact finalizeRate_none _ _ _ _ _ _ _
    · intro r h2 hs
      rw [h2]
      exact finalizeRate_stale _ _ _ _ _ _ _ _ hs
    · intro r h2 hs
      rw [h2]
      exact finalizeRate_fresh _ _ _ _ _ _ _ _ hs
  · intro e c p lu
    refine ⟨?_, ?_, ?_⟩ <;> intro h <;> cases h

/-- C7 witness: empty cache (first lookup misses), refresh raises; the
call fails with `ApiRequestError` after exactly one refresh attempt. -/
theorem c7_witness :
    get_rate_run "BTC".data "USD".data 300 0 ⟨[], none⟩ (.error "network down".data)
      = ⟨.error (.apiRequest "network down".data), 1, 1⟩ :=
  (c7_single_refresh_and_errors "BTC".data "USD".data (by decide) (by decide)
      300 0 ⟨[], none⟩ (.error "network down".data) (by decide)).1
    "network down".data rfl

/-! ## C8: strictly-positive-rate invariant -/

/-- C8 counterexample: a crypto quote with raw rate 0 is written to the
cache (`pairs["BTC_USD"] = {"rate": 0.0, …}`) — the crypto branch only
skips a missing (`None`) rate, so the claimed "never store zero,
regardless of source" invariant fails. -/
theorem c8_counterexample :
    lookupPair
        (update ⟨[], none⟩ "2026-01-02T00:00:00+00:00".data none false
          (.ok [("BTC".data, ⟨some 0⟩)]) (.ok .empty)).1.pairs "BTC_USD".data
      = some ⟨some 0, some "2026-01-02T00:00:00+00:00".data, "CoinGecko".data⟩ := by
  decide

/-- C8 amended: the fiat branch never stores a zero or missing rate
(such a quote leaves the cache exactly as an empty fiat result would),
but the crypto branch skips only a missing rate — any present value,
including 0, is stored as-is. -/
theorem c8_rate_guards (existing : Cache) (ts code : Str) (r : ℚ)
    (hcode : startsWithUnderscore code = false) :
    ((update existing ts none false (.ok [(code, ⟨some r⟩)]) (.ok .empty)).1.pairs
        = insertPair (gcPairs existing) (code ++ "_USD".data)
            ⟨some r, some ts, "CoinGecko".data⟩)
    ∧ ((update existing ts none false (.ok [(code, ⟨none⟩)]) (.ok .empty)).1
        = (update existing ts none false (.ok []) (.ok .empty)).1)
    ∧ ((update existing ts none false (.ok []) (.ok (.data "USD".data [(code, some 0)]))).1
        = (update existing ts none false (.ok []) (.ok .empty)).1)
    ∧ ((update existing ts none false (.ok []) (.ok (.data "USD".data [(code, none)]))).1
        = (update existing ts none false (.ok []) (.ok .empty)).1) := by
  refine ⟨?_, ?_, rfl, rfl⟩
  · simp only [update, sourceMatches, gcPairs]
    simp [applyCrypto, hcode]
    rw [if_neg (insertPair_ne_nil _ _ _)]
  · simp only [update, sourceMatches, applyCrypto, hcode]
    rfl

/-- C8 witness: the amended theorem at `code = BTC`, `r = 0`: even a
zero crypto rate is written. -/
theorem c8_witness :
    ((update ⟨[], none⟩ "2026-01-02T00:00:00+00:00".data none false
        (.ok [("BTC".data, ⟨some 0⟩)]) (.ok .empty)).1.pairs
        = insertPair (gcPairs ⟨[], none⟩) ("BTC".data ++ "_USD".data)
            ⟨some 0, some "2026-01-02T00:00:00+00:00".data, "CoinGecko".data⟩)
    ∧ ((update ⟨[], none⟩ "2026-01-02T00:00:00+00:00".data none false
        (.ok [("BTC".data, ⟨none⟩)]) (.ok .empty)).1
        = (update ⟨[], none⟩ "2026-01-02T00:00:00+00:00".data none false
            (.ok []) (.ok .empty)).1)
    ∧ ((update ⟨[], none⟩ "2026-01-02T00:00:00+00:00".data none false
        (.ok []) (.ok (.data "USD".data [("BTC".data, some 0)]))).1
        = (update ⟨[], none⟩ "2026-01-02T00:00:00+00:00".data none false
            (.ok []) (.ok .empty)).1)
    ∧ ((update ⟨[], none⟩ "2026-01-02T00:00:00+00:00".data none false
        (.ok []) (.ok (.data "USD".data [("BTC".data, none)]))).1
        = (update ⟨[], none⟩ "2026-01-02T00:00:00+00:00".data none false
            (.ok []) (.ok .empty)).1) :=
  c8_rate_guards ⟨[], none⟩ "2026-01-02T00:00:00+00:00".data "BTC".data 0 (by decide)

/-! ## C9: garbage collection of unsupported pairs -/

/-- C9 counterexample: `JPY` is outside the supported currency set,
yet after a cycle in which the fiat feed returns a `JPY` quote, the
stored cache contains `JPY_USD` — newly fetched quotes are written
after the garbage-collection step without any support filtering. -/
theorem c9_counterexample :
    gcKeep "JPY_USD".data = false
    ∧ (lookupPair
        (update ⟨[], none⟩ "2026-01-02T00:00:00+00:00".data none false
          (.ok []) (.ok (.data "USD".data [("JPY".data, some 2)]))).1.pairs
        "JPY_USD".data).isSome = true := by
  decide

/-- C9 amended: garbage collection applies to the pairs retained from
the prior cache: any pre-existing pair with a leg outside the supported
set is absent after a cycle that persists (here: one that writes a
supported crypto quote) — but quotes newly fetched this cycle are not
filtered, so the fiat feed can introduce unsupported pairs. -/
theorem c9_gc_retained_pairs (existing : Cache) (ts k code : Str) (r : ℚ)
    (hk : gcKeep k = false) (hcode : startsWithUnderscore code = false)
    (hne : k ≠ code ++ "_USD".data) :
    lookupPair
        (update existing ts none false (.ok [(code, ⟨some r⟩)])
          (.ok .empty)).1.pairs k
      = none := by
  have hins := insertPair_ne_nil (existing.pairs.filter (fun kv => gcKeep kv.1))
    (code ++ "_USD".data) (⟨some r, some ts, "CoinGecko".data⟩ : Quote)
  simp only [update, sourceMatches]
  simp [applyCrypto, hcode] at hins hne ⊢
  simp [hins]
  rw [lookupPair_insertPair_ne _ _ _ _ hne]
  exact lookupPair_filter_of_not _ _ _ hk

/-- C9 witness: the amended theorem at a prior cache still holding a
`DOGE_USD` pair: it is dropped by the next persisting cycle (here one
that fetches a fresh `BTC` quote). -/
theorem c9_witness :
    lookupPair
        (update ⟨[("DOGE_USD".data, ⟨some 1, none, "CoinGecko".data⟩)], none⟩
          "2026-01-02T00:00:00+00:00".data none false
          (.ok [("BTC".data, ⟨some 1⟩)]) (.ok .empty)).1.pairs
        "DOGE_USD".data
      = none :=
  c9_gc_retained_pairs ⟨[("DOGE_USD".data, ⟨some 1, none, "CoinGecko".data⟩)], none⟩
    "2026-01-02T00:00:00+00:00".data "DOGE_USD".data "BTC".data 1
    (by decide) (by decide) (by decide)

/-! ## C10: `last_refresh` fallback for missing `updated_at` -/

/-- C10: on a direct or reverse cache hit whose record has a missing or
empty `updated_at`, `get_rate` substitutes the cache-wide
`last_refresh` as the quote's timestamp (Python's `or` fallback); when
`last_refresh` is within the TTL the quote is served as fresh — one
cache read, no refresh — with `last_refresh` as the returned
`updated_at`. -/
theorem c10_last_refresh_fallback (F T : Str) (hF : F ∈ registryCodes)
    (hT : T ∈ registryCodes) (cache : Cache) (r : ℚ) (ua : Option Str) (src : Str)
    (ttl now : Int) (refresh : Except Str Cache)
    (hua : ua = none ∨ ua = some [])
    (hfresh : is_stale cache.last_refresh ttl now = false) :
    (lookupPair cache.pairs (F ++ '_' :: T) = some ⟨some r, ua, src⟩ →
      get_rate_run F T ttl now cache refresh
        = ⟨.ok ⟨F, T, r, cache.last_refresh⟩, 1, 0⟩)
    ∧ (lookupPair cache.pairs (F ++ '_' :: T) = none →
      lookupPair cache.pairs (T ++ '_' :: F) = some ⟨some r, ua, src⟩ → r ≠ 0 →
      get_rate_run F T ttl now cache refresh
        = ⟨.ok ⟨F, T, 1 / r, cache.last_refresh⟩, 1, 0⟩) := by
  constructor
  · intro hd
    rw [get_rate_run_of_mem hF hT]
    rcases hua with rfl | rfl <;>
      simp [resolveWith, lookupStep, hd, orFalsy, hfresh, finalizeRate]
  · intro hd hr hrz
    rw [get_rate_run_of_mem hF hT]
    rcases hua with rfl | rfl <;>
      simp [resolveWith, lookupStep, hd, hr, hrz, orFalsy, hfresh, finalizeRate]

/-- C10 witness: `BTC_USD` stored with an empty `updated_at` but a
fresh cache-wide `last_refresh`: the quote is served fresh with
`last_refresh` as its timestamp, without a refresh. -/
theorem c10_witness :
    get_rate_run "BTC".data "USD".data 300 1767225700000000
        ⟨[("BTC_USD".data, ⟨some 20000, some [], "CoinGecko".data⟩)],
          some "2026-01-01T00:00:00Z".data⟩ (.error "unused".data)
      = ⟨.ok ⟨"BTC".data, "USD".data, 20000, some "2026-01-01T00:00:00Z".data⟩, 1, 0⟩ :=
  (c10_last_refresh_fallback "BTC".data "USD".data (by decide) (by decide)
      ⟨[("BTC_USD".data, ⟨some 20000, some [], "CoinGecko".data⟩)],
        some "2026-01-01T00:00:00Z".data⟩
      20000 (some []) "CoinGecko".data 300 1767225700000000 (.error "unused".data)
      (Or.inr rfl) (by decide)).1 (by decide)

